import Mathlib

/-
Verification of the GX35 single-cylinder ECU firmware.

Embedded sources:
  - src/src/ecu/ecu.ino        (main firmware: fueling model, kinematics,
                                mode state machine, ISRs)
  - src/src/ecu/table.cpp      (axis search and 3-D table lookup)
  - src/ecu/src/main/ecu.ino   (same firmware with the engine constants of
                                the missing header ecu.h written inline;
                                those constants are taken from it)

Float arithmetic of the target is modelled with exact rationals; machine
timestamps (micros()) are naturals.  The 2-D tuning-table lookups called in
the RUNNING state (table2DLookup) have no implementation under src/ (the
2-D section of table.cpp is empty), so they enter the model as oracle
functions carried by the environment record.
-/

/- ## Engine constants (src/ecu/src/main/ecu.ino, lines 70-98; these are the
   same preprocessor defines the missing ecu.h supplies to src/src/ecu/ecu.ino) -/

/-- Stoichiometric air-fuel ratio for gasoline; source define AIR_FUEL_RATIO 14.7f. -/
def airFuelRatio : ℚ := 14.7

/-- Molar mass of dry air, g/mol; source define MOLAR_MASS_AIR 28.97f. -/
def MOLAR_MASS_AIR : ℚ := 28.97

/-- Ideal gas constant, J/(mol*K); source define R_CONSTANT 8.314f. -/
def R_CONSTANT : ℚ := 8.314

/-- Top Dead Center, degrees; source define TDC 360. -/
def TDC : ℚ := 360

/-- Spark coil dwell time, microseconds; source define DWELL_TIME 3000. -/
def DWELL_TIME : ℕ := 3000

/-- Tach sensor offset from TDC, degrees; source define CALIB_ANGLE 30. -/
def CALIB_ANGLE : ℚ := 30

/-- Fueling end angle, degrees; source define FUEL_END_ANGLE 120. -/
def FUEL_END_ANGLE : ℚ := 120

/-- Displacement in cubic meters; source define ENGINE_DISPLACEMENT 35.8E-6. -/
def ENGINE_DISPLACEMENT : ℚ := 0.0000358

/-- Injector fueling rate, kg/s; source define MASS_FLOW_RATE 0.0006f. -/
def MASS_FLOW_RATE : ℚ := 0.0006

/-- Engagement threshold, RPM; source define ENGAGE_SPEED 100. -/
def ENGAGE_SPEED : ℚ := 100

/-- Cranking threshold, RPM; source define CRANKING_SPEED 500. -/
def CRANKING_SPEED : ℚ := 500

/-- Rev limiter activation threshold, RPM; source define UPPER_REV_LIMIT 6000. -/
def UPPER_REV_LIMIT : ℚ := 6000

/-- Rev limiter release threshold, RPM; source define LOWER_REV_LIMIT 5800. -/
def LOWER_REV_LIMIT : ℚ := 5800

/-- Cranking volumetric efficiency; source define CRANK_VOL_EFF 0.30f. -/
def CRANK_VOL_EFF : ℚ := 0.30

/-- Cranking spark advance, degrees; source define CRANK_SPARK_ADV 10. -/
def CRANK_SPARK_ADV : ℚ := 10

/- ## Pure conversion and kinematics functions (src/src/ecu/ecu.ino) -/

/-- Macro convertToRPM: ANGULAR_SPEED_US * 166667.0f
    (degrees/microsecond to revolutions/minute). -/
def convertToRPM (angularSpeedUs : ℚ) : ℚ := angularSpeedUs * 166667

/-- Macro convertFromRPM: RPM * 6E-6f
    (revolutions/minute to degrees/microsecond). -/
def convertFromRPM (rpm : ℚ) : ℚ := rpm * 0.000006

/-- Macro calcSpeed: 0.7*(360.0f/(CURR_TIME - PREV_TIME)) + 0.3*CURR_ANG_SPEED,
    the exponentially weighted angular speed update of the tach ISR. -/
def calcSpeed (currTime prevTime : ℕ) (currAngSpeed : ℚ) : ℚ :=
  0.7 * (360 / ((currTime : ℚ) - (prevTime : ℚ))) + 0.3 * currAngSpeed

/-- ecu.ino getCurrAngle: angle = angular_speed*(micros() - calib_time) + CALIB_ANGLE,
    then `angle >= 360 ? angle - 360 : angle`.  The call to micros() is the
    parameter `now`; the subtraction is exact for now >= calib_time, the domain
    of every claim about this function. -/
def getCurrAngle (angular_speed : ℚ) (calib_time now : ℕ) : ℚ :=
  let angle := angular_speed * ((now : ℚ) - (calib_time : ℚ)) + CALIB_ANGLE
  if angle ≥ 360 then angle - 360 else angle

/-- True mathematical wrap of an angle into [0, 360). -/
def qmod360 (x : ℚ) : ℚ := x - 360 * ((Int.floor (x / 360) : ℤ) : ℚ)

/- ## Fueling model (src/src/ecu/ecu.ino lines 170-182) -/

/-- ecu.ino injectorPulse:
      airMolar = airVol * (currMAP * 1E-3) / (R_CONSTANT * IATval);
      fuelMass = airMolar * MOLAR_MASS_AIR / AIR_FUEL_RATIO;
      return fuelMass * 1E3 / MASS_FLOW_RATE;
    The source multiplies the kPa MAP reading by 1E-3 even though its own unit
    comment on that line reads [Pa/1kPa]. -/
def injectorPulse (airVol currMAP iat : ℚ) : ℚ :=
  let airMolar := airVol * (currMAP * 0.001) / (R_CONSTANT * iat)
  let fuelMass := airMolar * MOLAR_MASS_AIR / airFuelRatio
  fuelMass * 1000 / MASS_FLOW_RATE

/-- Modelled from the spec: the fueling pipeline as the claim states it, with
    MAP converted from kPa to Pa by multiplying by 10^3
    (`n = airVolume * (MAP*10^3 Pa) / (R * IAT)`), for comparison with the
    source function injectorPulse. -/
def injectorPulseClaimed (airVol currMAP iat : ℚ) : ℚ :=
  let airMolar := airVol * (currMAP * 1000) / (R_CONSTANT * iat)
  let fuelMass := airMolar * MOLAR_MASS_AIR / airFuelRatio
  fuelMass * 1000 / MASS_FLOW_RATE

/- ## Event scheduling helpers (src/src/ecu/ecu.ino lines 184-200).
   The source functions write one global (the computed target angle) and
   return the timer delay; here they return the pair (angle, delay). -/

/-- ecu.ino timeToStartFueling:
      fuelStartAngle = FUEL_END_ANGLE - fuelDuration*angularSpeed;
      return (fuelStartAngle - engineAngle) / angularSpeed. -/
def timeToStartFueling (fuelDuration angularSpeed engineAngle : ℚ) : ℚ × ℚ :=
  let fuelStartAngle := FUEL_END_ANGLE - fuelDuration * angularSpeed
  (fuelStartAngle, (fuelStartAngle - engineAngle) / angularSpeed)

/-- ecu.ino timetoChargeSpark:
      sparkChargeAngle = sparkDischargeAngle - DWELL_TIME*currAngularSpeed;
      return (sparkChargeAngle - currEngineAngle) / currAngularSpeed. -/
def timetoChargeSpark (sparkDischargeAngle currAngularSpeed currEngineAngle : ℚ) : ℚ × ℚ :=
  let sparkChargeAngle := sparkDischargeAngle - (DWELL_TIME : ℚ) * currAngularSpeed
  (sparkChargeAngle, (sparkChargeAngle - currEngineAngle) / currAngularSpeed)

/- ## Diagnostic print counter (tach ISR, src/src/ecu/ecu.ino line 487) -/

/-- One tach-ISR update of serialPrintCount:
    `serialPrintCount >= 9 ? 0 : serialPrintCount + 1`. -/
def tachCountStep (c : ℤ) : ℤ := if 9 ≤ c then 0 else c + 1

/-- serialPrintCount after n tach interrupts, starting from the value 1 set
    in setup() (src/src/ecu/ecu.ino line 234). -/
def serialCountAfter : ℕ → ℤ
  | 0 => 1
  | n + 1 => tachCountStep (serialCountAfter n)

/- ## Axis search of the table lookup (src/src/ecu/table.cpp lines 23-27) -/

/-- table.cpp findIndex, tail of the loop `for (i = 0; in >= vals[i], i++);`
    started at index i: advances while the query is >= the axis value.
    Returns none when the loop runs past the end of the axis array, which in
    the C source is a read out of bounds. -/
def findIndexFrom : List ℚ → ℚ → ℤ → Option ℤ
  | [], _, _ => none
  | v :: rest, x, i => if v ≤ x then findIndexFrom rest x (i + 1) else some (i - 1)

/-- table.cpp findIndex: `for (i = 0; in >= vals[i]; i++); return i - 1;`. -/
def findIndex (vals : List ℚ) (x : ℚ) : Option ℤ := findIndexFrom vals x 0

/-- A C array read `vals[i]` on an axis array of length vals.length:
    defined only for in-bounds indices, none models the out-of-bounds read. -/
def axisGet (vals : List ℚ) (i : ℤ) : Option ℚ :=
  if h : 0 ≤ i ∧ i.toNat < vals.length then some (vals.get ⟨i.toNat, h.2⟩) else none

/- ## Spark ignition pipeline (src/src/ecu/ecu.ino lines 496-517) -/

/-- Spark pipeline state: the SPARK_OUT pin level and the pending one-shot
    deadlines of SPARK_CHARGE_TIMER and SPARK_DISCHARGE_TIMER (absolute
    microsecond times). -/
structure SparkState where
  sparkPin : Bool
  chargeArmed : Option ℕ
  dischargeArmed : Option ℕ
  deriving Repr, DecidableEq

/-- ecu.ino chargeSpark_ISR, fired at time `now`: stops SPARK_CHARGE_TIMER,
    drives SPARK_OUT HIGH, arms SPARK_DISCHARGE_TIMER for DWELL_TIME
    microseconds. -/
def chargeSpark_ISR (now : ℕ) (s : SparkState) : SparkState :=
  { s with chargeArmed := none,
           sparkPin := true,
           dischargeArmed := some (now + DWELL_TIME) }

/-- ecu.ino dischargeSpark_ISR: drives SPARK_OUT LOW and stops
    SPARK_DISCHARGE_TIMER. -/
def dischargeSpark_ISR (s : SparkState) : SparkState :=
  { s with sparkPin := false, dischargeArmed := none }

/- ## Mode state machine (src/src/ecu/ecu.ino, non-diagnostic loop, lines 308-468) -/

/-- The state enum of src/src/ecu/ecu.ino lines 73-80. -/
inductive state where
  | READ_SENSORS
  | CALIBRATION
  | CRANKING
  | RUNNING
  | REV_LIMITER
  | SERIAL_OUT
  deriving Repr, DecidableEq

/-- The firmware globals read and written by the modelled loop fragment. -/
structure EcuState where
  currState : state
  killswitch : Bool
  fuelCycle : Bool
  revLimit : Bool
  serialPrintCount : ℤ
  currAngularSpeed : ℚ
  currRPM : ℚ
  calibAngleTime : ℕ
  lastCalibAngleTime : ℕ
  MAPval : ℚ
  IATval : ℚ
  TPSval : ℚ
  volEff : ℚ
  airVolume : ℚ
  fuelDuration : ℚ
  fuelStartAngle : ℚ
  sparkChargeAngle : ℚ
  sparkDischargeAngle : ℚ
  currEngineAngle : ℚ
  deriving Repr

/-- Timer arming requests issued during one loop iteration: the delay passed
    to FUEL_START_TIMER.start and to SPARK_CHARGE_TIMER.start, when called. -/
structure Armed where
  fuel : Option ℚ
  spark : Option ℚ
  deriving Repr, DecidableEq

/-- No timer armed. -/
def noArm : Armed := { fuel := none, spark := none }

/-- External inputs of one loop iteration: the micros() timestamps seen by the
    tach ISR and by the two getCurrAngle refreshes, the 2-D tuning-table
    lookups of the RUNNING state (absent from src/, so oracles here), and the
    sensor values produced by the READ_SENSORS state. -/
structure Env where
  tachNow : ℕ
  nowF : ℕ
  nowS : ℕ
  ve : ℚ → ℚ → ℚ
  sa : ℚ → ℚ → ℚ
  mapIn : ℚ
  iatIn : ℚ
  tpsIn : ℚ

/-- One iteration of the main loop switch (src/src/ecu/ecu.ino lines 308-468),
    returning the new globals and the timer arming requests of the iteration. -/
def loopStep (e : Env) (s : EcuState) : EcuState × Armed :=
  match s.currState with
  | state.READ_SENSORS =>
      ({ s with currState := state.READ_SENSORS,
                MAPval := e.mapIn, IATval := e.iatIn, TPSval := e.tpsIn }, noArm)
  | state.CALIBRATION =>
      match s.killswitch with
      | true =>
          let rpm := convertToRPM s.currAngularSpeed
          if s.revLimit then
            if rpm < LOWER_REV_LIMIT then
              ({ s with currRPM := rpm, revLimit := false,
                        currState := state.RUNNING }, noArm)
            else
              ({ s with currRPM := rpm, currState := state.READ_SENSORS }, noArm)
          else
            if UPPER_REV_LIMIT ≤ rpm then
              ({ s with currRPM := rpm, currState := state.REV_LIMITER }, noArm)
            else if rpm < UPPER_REV_LIMIT ∧ CRANKING_SPEED ≤ rpm then
              ({ s with currRPM := rpm, currState := state.RUNNING }, noArm)
            else if rpm < CRANKING_SPEED ∧ ENGAGE_SPEED ≤ rpm then
              ({ s with currRPM := rpm, currState := state.CRANKING }, noArm)
            else
              ({ s with currRPM := rpm, currState := state.READ_SENSORS }, noArm)
      | false => ({ s with currState := state.READ_SENSORS }, noArm)
  | state.CRANKING =>
      let next := if s.serialPrintCount = 0 then state.SERIAL_OUT else state.READ_SENSORS
      let fueled :=
        if s.fuelCycle then
          let airVolume := CRANK_VOL_EFF * ENGINE_DISPLACEMENT
          let fuelDuration := injectorPulse airVolume s.MAPval s.IATval
          let angleF := getCurrAngle s.currAngularSpeed s.calibAngleTime e.nowF
          let fp := timeToStartFueling fuelDuration s.currAngularSpeed angleF
          ({ s with airVolume := airVolume, fuelDuration := fuelDuration,
                    fuelStartAngle := fp.1, currEngineAngle := angleF },
           some fp.2)
        else (s, none)
      let dis := TDC - CRANK_SPARK_ADV
      let angleS := getCurrAngle s.currAngularSpeed s.calibAngleTime e.nowS
      let sp := timetoChargeSpark dis s.currAngularSpeed angleS
      ({ fueled.1 with currState := next, sparkDischargeAngle := dis,
                       sparkChargeAngle := sp.1, currEngineAngle := angleS },
       { fuel := fueled.2, spark := some sp.2 })
  | state.RUNNING =>
      let next := if s.serialPrintCount = 0 then state.SERIAL_OUT else state.READ_SENSORS
      let fueled :=
        if s.fuelCycle then
          let volEff := e.ve (convertToRPM s.currAngularSpeed) s.MAPval
          let airVolume := volEff * ENGINE_DISPLACEMENT
          let fuelDuration := injectorPulse airVolume s.MAPval s.IATval
          let angleF := getCurrAngle s.currAngularSpeed s.calibAngleTime e.nowF
          let fp := timeToStartFueling fuelDuration s.currAngularSpeed angleF
          ({ s with volEff := volEff, airVolume := airVolume,
                    fuelDuration := fuelDuration,
                    fuelStartAngle := fp.1, currEngineAngle := angleF },
           some fp.2)
        else (s, none)
      let dis := TDC - e.sa (convertToRPM s.currAngularSpeed) s.MAPval
      let angleS := getCurrAngle s.currAngularSpeed s.calibAngleTime e.nowS
      let sp := timetoChargeSpark dis s.currAngularSpeed angleS
      ({ fueled.1 with currState := next, sparkDischargeAngle := dis,
                       sparkChargeAngle := sp.1, currEngineAngle := angleS },
       { fuel := fueled.2, spark := some sp.2 })
  | state.REV_LIMITER =>
      let next := if s.serialPrintCount = 0 then state.SERIAL_OUT else state.READ_SENSORS
      ({ s with currState := next, revLimit := true }, noArm)
  | state.SERIAL_OUT =>
      ({ s with currState := state.READ_SENSORS }, noArm)

/-- ecu.ino tach_ISR (lines 477-490), fired at time `now`: records the
    timestamps, updates the filtered angular speed, toggles fuelCycle,
    advances serialPrintCount, forces the CALIBRATION state. -/
def tach_ISR (now : ℕ) (s : EcuState) : EcuState :=
  { s with lastCalibAngleTime := s.calibAngleTime,
           calibAngleTime := now,
           currAngularSpeed := calcSpeed now s.calibAngleTime s.currAngularSpeed,
           fuelCycle := !s.fuelCycle,
           serialPrintCount := tachCountStep s.serialPrintCount,
           currState := state.CALIBRATION }

/-- Left-biased union of the arming requests of successive loop iterations. -/
def armJoin (a b : Armed) : Armed :=
  { fuel := a.fuel.orElse (fun _ => b.fuel),
    spark := a.spark.orElse (fun _ => b.spark) }

/-- One crankshaft revolution, at the ordering granularity the firmware relies
    on (spec section 5): the tach ISR fires, then the main loop runs its
    CALIBRATION iteration and the following iterations until it is back in the
    quiescent READ_SENSORS state (three iterations always suffice: regime body
    and at most one SERIAL_OUT).  Returns the end state and every timer arming
    request issued during the revolution. -/
def cycleStep (e : Env) (s : EcuState) : EcuState × Armed :=
  let s1 := tach_ISR e.tachNow s
  let r2 := loopStep e s1
  let r3 := loopStep e r2.1
  let r4 := loopStep e r3.1
  (r4.1, armJoin r2.2 (armJoin r3.2 r4.2))

/-- Iterated revolutions; the boolean records whether any fuel or spark timer
    was armed during any of them. -/
def runCycles : List Env → EcuState → EcuState × Bool
  | [], s => (s, false)
  | e :: rest, s =>
      let r := cycleStep e s
      let z := runCycles rest r.1
      (z.1, r.2.fuel.isSome || r.2.spark.isSome || z.2)

/-- Every revolution of the trace observes an RPM at or above the rev-limit
    release threshold at its CALIBRATION step. -/
def allHighRpm : EcuState → List Env → Prop
  | _, [] => True
  | s, e :: rest =>
      LOWER_REV_LIMIT ≤ convertToRPM (tach_ISR e.tachNow s).currAngularSpeed ∧
      allHighRpm (cycleStep e s).1 rest

/- ## Theorems -/

/- ### Helper lemmas -/

/-- Closed form for the diagnostic print counter. -/
theorem serialCountAfter_formula (n : ℕ) : serialCountAfter n = (1 + (n : ℤ)) % 10 := by
  induction n with
  | zero => rfl
  | succ n ih =>
      show tachCountStep (serialCountAfter n) = _
      rw [ih]
      unfold tachCountStep
      split_ifs with h <;> omega

/- ### C9: RPM conversion round trip -/

/-- C9 counterexample: the round trip convertToRPM (convertFromRPM x) at
    x = 6000 RPM returns 6000.012, which differs from 6000 by 0.012 — more
    than the single-precision epsilon bound 6000 * 2^-23. -/
theorem convertRoundTrip_counterexample :
    convertToRPM (convertFromRPM 6000) = 6000 + 3 / 250 ∧
    convertToRPM (convertFromRPM 6000) ≠ 6000 ∧
    6000 * ((1 : ℚ) / 2 ^ 23) < 3 / 250 := by
  norm_num [convertToRPM, convertFromRPM]

/-- C9 amended: the round trip is exactly the constant 1.000002 = 6E-6*166667
    times the input, a relative error of 2e-6 for every nonzero speed (17
    times the single-precision machine epsilon), not an identity to within
    float epsilon. -/
theorem convertRoundTrip_scale (x : ℚ) :
    convertToRPM (convertFromRPM x) = x * (1000002 / 1000000) := by
  unfold convertToRPM convertFromRPM
  ring

/- ### C10: diagnostic print counter invariant -/

/-- C10: starting from serialPrintCount = 1 set in setup(), the counter after
    n tach interrupts equals (1+n) mod 10, stays in [0, 9], and is 0 exactly
    once every 10 revolutions; the CRANKING step hands control to SERIAL_OUT
    exactly when the counter is 0. -/
theorem tachPrintCounter :
    (∀ n : ℕ, serialCountAfter n = (1 + (n : ℤ)) % 10 ∧
      0 ≤ serialCountAfter n ∧ serialCountAfter n ≤ 9 ∧
      (serialCountAfter n = 0 ↔ n % 10 = 9)) ∧
    (∀ (e : Env) (s : EcuState), s.currState = state.CRANKING →
      ((loopStep e s).1.currState = state.SERIAL_OUT ↔ s.serialPrintCount = 0)) := by
  constructor
  · intro n
    have h := serialCountAfter_formula n
    refine ⟨h, ?_, ?_, ?_⟩ <;> rw [h] <;> omega
  · intro e s hs
    obtain ⟨cs, kw, fc, rl, spc, w, rpm, cat, lcat, mp, iat, tps, ve, av, fd, fsa, sca, sda, cea⟩ := s
    simp only at hs
    subst hs
    simp only [loopStep]
    split_ifs with h <;> simp [h]

/-- C10 witness: after 9 revolutions the counter reaches 0, and a concrete
    CRANKING step with counter 0 selects SERIAL_OUT. -/
theorem tachPrintCounter_witness :
    (serialCountAfter 9 = 0 ↔ 9 % 10 = 9) ∧
    ((loopStep { tachNow := 0, nowF := 0, nowS := 0, ve := fun _ _ => 0,
                 sa := fun _ _ => 0, mapIn := 0, iatIn := 0, tpsIn := 0 }
        { currState := state.CRANKING, killswitch := true, fuelCycle := false,
          revLimit := false, serialPrintCount := 0, currAngularSpeed := 1,
          currRPM := 0, calibAngleTime := 0, lastCalibAngleTime := 0,
          MAPval := 90, IATval := 298, TPSval := 0, volEff := 0, airVolume := 0,
          fuelDuration := 0, fuelStartAngle := 0, sparkChargeAngle := 0,
          sparkDischargeAngle := 0, currEngineAngle := 0 }).1.currState
        = state.SERIAL_OUT ↔ (0 : ℤ) = 0) :=
  ⟨(tachPrintCounter.1 9).2.2.2, tachPrintCounter.2 _ _ rfl⟩

/- ### C7: spark dwell -/

/-- C7: when SPARK_CHARGE fires at time now, the charge timer is stopped, the
    spark pin is driven HIGH and SPARK_DISCHARGE is armed for exactly
    now + DWELL_TIME; when the discharge fires the pin is driven LOW and the
    timer stopped — so the pin is HIGH for exactly DWELL_TIME microseconds,
    independent of any engine speed. -/
theorem sparkDwellExact (s : SparkState) (now : ℕ) :
    (chargeSpark_ISR now s).sparkPin = true ∧
    (chargeSpark_ISR now s).chargeArmed = none ∧
    (chargeSpark_ISR now s).dischargeArmed = some (now + DWELL_TIME) ∧
    (dischargeSpark_ISR (chargeSpark_ISR now s)).sparkPin = false ∧
    (dischargeSpark_ISR (chargeSpark_ISR now s)).dischargeArmed = none := by
  simp [chargeSpark_ISR, dischargeSpark_ISR]

/- ### C5: axis search has no clamping -/

/-- C5: the findIndex loop selects the correct cell for in-range queries
    (here xs[0] <= 150 < xs[1] gives index 0), but a query below the first
    axis value returns index -1 — an out-of-bounds axis read (axisGet = none)
    — and a query at or above the last axis value walks past the end of the
    array: there is no clamping. -/
theorem findIndex_no_clamping :
    findIndex [100, 200] 150 = some 0 ∧
    findIndex [100, 200] 50 = some (-1) ∧
    axisGet [100, 200] (-1) = none ∧
    findIndex [100, 200] 250 = none := by
  decide

/- ### C1: fueling model -/

/-- C1 counterexample: at airVolume = 0.30*35.8e-6 m^3, MAP = 90 kPa,
    IAT = 298 K, the injectorPulse of the source returns less than 0.01 us
    (about 1.3e-3 us): it does not equal the claimed formula with the kPa-to-Pa
    factor 10^3, and even that claimed formula evaluates to about 1281.6 us
    = 1.28 ms, which is not approximately 7.7 ms. -/
theorem injectorPulse_claim_counterexample :
    injectorPulse (CRANK_VOL_EFF * ENGINE_DISPLACEMENT) 90 298 < 1 / 100 ∧
    injectorPulse (CRANK_VOL_EFF * ENGINE_DISPLACEMENT) 90 298 ≠
      injectorPulseClaimed (CRANK_VOL_EFF * ENGINE_DISPLACEMENT) 90 298 ∧
    ¬ (7000 ≤ injectorPulseClaimed (CRANK_VOL_EFF * ENGINE_DISPLACEMENT) 90 298 ∧
       injectorPulseClaimed (CRANK_VOL_EFF * ENGINE_DISPLACEMENT) 90 298 ≤ 8400) := by
  norm_num [injectorPulse, injectorPulseClaimed, CRANK_VOL_EFF, ENGINE_DISPLACEMENT,
    R_CONSTANT, MOLAR_MASS_AIR, airFuelRatio, MASS_FLOW_RATE]

/-- C1 amended: the source multiplies MAP by 1E-3 (against its own unit
    comment), so the claimed pipeline with the 10^3 factor is exactly 10^6
    times the code's result for all inputs; at the claim's inputs the code
    yields about 1.28e-3 us while the claimed formula yields about 1281.6 us
    (1.28 ms) — in neither case approximately 7.7 ms. -/
theorem injectorPulse_code_vs_claimed :
    (∀ airVol currMAP iat : ℚ,
      injectorPulseClaimed airVol currMAP iat = 1000000 * injectorPulse airVol currMAP iat) ∧
    (1 / 1000 < injectorPulse (CRANK_VOL_EFF * ENGINE_DISPLACEMENT) 90 298 ∧
      injectorPulse (CRANK_VOL_EFF * ENGINE_DISPLACEMENT) 90 298 < 2 / 1000) ∧
    (1281 < injectorPulseClaimed (CRANK_VOL_EFF * ENGINE_DISPLACEMENT) 90 298 ∧
      injectorPulseClaimed (CRANK_VOL_EFF * ENGINE_DISPLACEMENT) 90 298 < 1282) := by
  refine ⟨fun v p t => ?_, ?_, ?_⟩
  · unfold injectorPulseClaimed injectorPulse
    ring
  · constructor <;>
      norm_num [injectorPulse, CRANK_VOL_EFF, ENGINE_DISPLACEMENT, R_CONSTANT,
        MOLAR_MASS_AIR, airFuelRatio, MASS_FLOW_RATE]
  · constructor <;>
      norm_num [injectorPulseClaimed, CRANK_VOL_EFF, ENGINE_DISPLACEMENT, R_CONSTANT,
        MOLAR_MASS_AIR, airFuelRatio, MASS_FLOW_RATE]

/- ### C8: current engine angle -/

/-- C8 counterexample: with angularSpeed = 1 deg/us, calibAngleTime = 0 and
    now = 1000 us, the unwrapped angle is 1030 degrees; getCurrAngle returns
    670, which is neither in [0, 360) nor the mod-360 value 310. -/
theorem getCurrAngle_counterexample :
    getCurrAngle 1 0 1000 = 670 ∧
    ¬ getCurrAngle 1 0 1000 < 360 ∧
    qmod360 (1 * ((1000 : ℚ) - (0 : ℚ)) + CALIB_ANGLE) = 310 ∧
    getCurrAngle 1 0 1000 ≠ qmod360 (1 * ((1000 : ℚ) - (0 : ℚ)) + CALIB_ANGLE) := by
  have hf : ⌊(1 * ((1000 : ℚ) - (0 : ℚ)) + CALIB_ANGLE) / 360⌋ = (2 : ℤ) := by
    rw [CALIB_ANGLE, Int.floor_eq_iff]
    norm_num
  have h1 : getCurrAngle 1 0 1000 = 670 := by norm_num [getCurrAngle, CALIB_ANGLE]
  have h2 : qmod360 (1 * ((1000 : ℚ) - (0 : ℚ)) + CALIB_ANGLE) = 310 := by
    unfold qmod360
    rw [hf, CALIB_ANGLE]
    norm_num
  exact ⟨h1, by rw [h1]; norm_num, h2, by rw [h1, h2]; norm_num⟩

/-- C8 amended: the single conditional subtraction of 360 agrees with the
    mathematical mod-360 wrap, and lands in [0, 360), exactly when the
    unwrapped angle angularSpeed*(now - calib) + CALIB_ANGLE is below 720
    (that is, when getCurrAngle is called less than two revolutions worth of
    angle after the calibration pulse). -/
theorem getCurrAngle_wrap (w : ℚ) (calib now : ℕ)
    (h1 : calib ≤ now) (h2 : 0 < w)
    (h3 : w * ((now : ℚ) - (calib : ℚ)) + CALIB_ANGLE < 720) :
    getCurrAngle w calib now = qmod360 (w * ((now : ℚ) - (calib : ℚ)) + CALIB_ANGLE) ∧
    0 ≤ getCurrAngle w calib now ∧ getCurrAngle w calib now < 360 := by
  have helapsed : (0 : ℚ) ≤ (now : ℚ) - (calib : ℚ) := by
    have hc : ((calib : ℚ)) ≤ (now : ℚ) := by exact_mod_cast h1
    linarith
  have hnn : 0 ≤ w * ((now : ℚ) - (calib : ℚ)) := mul_nonneg h2.le helapsed
  rw [CALIB_ANGLE] at h3
  simp only [getCurrAngle, qmod360, CALIB_ANGLE]
  set a := w * ((now : ℚ) - (calib : ℚ)) + 30 with ha
  have hlow : (30 : ℚ) ≤ a := by rw [ha]; linarith
  split_ifs with hge
  · have hfloor : ⌊a / 360⌋ = (1 : ℤ) := by
      rw [Int.floor_eq_iff]
      constructor
      · rw [le_div_iff₀ (by norm_num : (0 : ℚ) < 360)]
        push_cast
        linarith
      · rw [div_lt_iff₀ (by norm_num : (0 : ℚ) < 360)]
        push_cast
        linarith
    rw [hfloor]
    push_cast
    exact ⟨by ring, by linarith, by linarith⟩
  · push_neg at hge
    have hfloor : ⌊a / 360⌋ = (0 : ℤ) := by
      rw [Int.floor_eq_iff]
      constructor
      · rw [le_div_iff₀ (by norm_num : (0 : ℚ) < 360)]
        push_cast
        linarith
      · rw [div_lt_iff₀ (by norm_num : (0 : ℚ) < 360)]
        push_cast
        linarith
    rw [hfloor]
    push_cast
    exact ⟨by ring, by linarith, by linarith⟩

/-- C8 witness: at angularSpeed = 1 deg/us, calib = 0 and now = 500 us, the
    amended statement holds concretely (the unwrapped angle 530 wraps to 170). -/
theorem getCurrAngle_wrap_witness :
    getCurrAngle 1 0 500 = qmod360 (1 * ((500 : ℚ) - (0 : ℚ)) + CALIB_ANGLE) ∧
    0 ≤ getCurrAngle 1 0 500 ∧ getCurrAngle 1 0 500 < 360 :=
  getCurrAngle_wrap 1 0 500 (by norm_num) (by norm_num) (by norm_num [CALIB_ANGLE])

/- ### Cycle-level helper lemmas for the rev limiter and killswitch -/

/-- With the rev limiter latched and the observed RPM at or above the release
    threshold, a revolution arms nothing and keeps the latch. -/
theorem cycleStep_revLimit_hold (e : Env) (s : EcuState)
    (hrl : s.revLimit = true)
    (hrpm : LOWER_REV_LIMIT ≤ convertToRPM (tach_ISR e.tachNow s).currAngularSpeed) :
    (cycleStep e s).1.revLimit = true ∧ (cycleStep e s).2 = noArm := by
  obtain ⟨cs, kw, fc, rl, spc, w, rpm0, cat, lcat, mp, iat, tps, ve0, av, fd, fsa, sca, sda, cea⟩ := s
  simp only at hrl
  subst hrl
  simp only [tach_ISR] at hrpm
  have hnot : ¬ convertToRPM (calcSpeed e.tachNow cat w) < LOWER_REV_LIMIT := not_lt.mpr hrpm
  cases kw
  · simp [cycleStep, tach_ISR, loopStep, armJoin, noArm]
  · simp [cycleStep, tach_ISR, loopStep, armJoin, noArm, hnot]

/-- With the rev limiter clear, the killswitch closed and the observed RPM at
    or above UPPER_REV_LIMIT, a revolution latches the limiter and arms
    nothing. -/
theorem cycleStep_revLimit_entry (e : Env) (s : EcuState)
    (hks : s.killswitch = true) (hrl : s.revLimit = false)
    (hrpm : UPPER_REV_LIMIT ≤ convertToRPM (tach_ISR e.tachNow s).currAngularSpeed) :
    (cycleStep e s).1.revLimit = true ∧ (cycleStep e s).2 = noArm := by
  obtain ⟨cs, kw, fc, rl, spc, w, rpm0, cat, lcat, mp, iat, tps, ve0, av, fd, fsa, sca, sda, cea⟩ := s
  simp only at hks hrl
  subst hks
  subst hrl
  simp only [tach_ISR] at hrpm
  rcases eq_or_ne (tachCountStep spc) 0 with h | h <;>
    simp [cycleStep, tach_ISR, loopStep, armJoin, noArm, hrpm, h]

/-- With the rev limiter latched, the killswitch closed and the observed RPM
    below the release threshold, a revolution clears the latch and resumes
    RUNNING (a spark arming is issued again). -/
theorem cycleStep_revLimit_clear (e : Env) (s : EcuState)
    (hks : s.killswitch = true) (hrl : s.revLimit = true)
    (hrpm : convertToRPM (tach_ISR e.tachNow s).currAngularSpeed < LOWER_REV_LIMIT) :
    (cycleStep e s).1.revLimit = false ∧ ((cycleStep e s).2.spark).isSome = true := by
  obtain ⟨cs, kw, fc, rl, spc, w, rpm0, cat, lcat, mp, iat, tps, ve0, av, fd, fsa, sca, sda, cea⟩ := s
  simp only at hks hrl
  subst hks
  subst hrl
  simp only [tach_ISR] at hrpm
  rcases eq_or_ne (tachCountStep spc) 0 with h | h <;>
    cases fc <;>
      simp [cycleStep, tach_ISR, loopStep, armJoin, noArm, hrpm, h]

/-- Over any trace of revolutions that all observe RPM at or above the release
    threshold, a latched rev limiter stays latched and no fuel or spark timer
    is ever armed. -/
theorem runCycles_revLimit (es : List Env) : ∀ s : EcuState, s.revLimit = true →
    allHighRpm s es →
    (runCycles es s).1.revLimit = true ∧ (runCycles es s).2 = false := by
  induction es with
  | nil => intro s h _; simpa [runCycles] using h
  | cons e rest ih =>
      intro s h hall
      rw [allHighRpm] at hall
      have hc := cycleStep_revLimit_hold e s h hall.1
      have hr := ih (cycleStep e s).1 hc.1 hall.2
      simp only [runCycles]
      refine ⟨hr.1, ?_⟩
      rw [hc.2]
      simp [noArm, hr.2]

/- ### C2: rev-limit hysteresis -/

/-- C2: once a CALIBRATION step (killswitch closed) observes RPM at or above
    UPPER_REV_LIMIT = 6000, the revolution latches revLimit and arms no fuel or
    spark timer; any revolution with revLimit latched and observed RPM at or
    above LOWER_REV_LIMIT = 5800 keeps the latch and arms nothing (hence, by
    the trace conjunct, no timer is armed on any subsequent cycle); the latch
    is cleared, resuming RUNNING, exactly by a CALIBRATION observation below
    5800. -/
theorem revLimitHysteresis (e : Env) (s : EcuState) :
    (s.killswitch = true → s.revLimit = false →
      UPPER_REV_LIMIT ≤ convertToRPM (tach_ISR e.tachNow s).currAngularSpeed →
      (cycleStep e s).1.revLimit = true ∧ (cycleStep e s).2 = noArm) ∧
    (s.revLimit = true →
      LOWER_REV_LIMIT ≤ convertToRPM (tach_ISR e.tachNow s).currAngularSpeed →
      (cycleStep e s).1.revLimit = true ∧ (cycleStep e s).2 = noArm) ∧
    (s.killswitch = true → s.revLimit = true →
      convertToRPM (tach_ISR e.tachNow s).currAngularSpeed < LOWER_REV_LIMIT →
      (cycleStep e s).1.revLimit = false ∧ ((cycleStep e s).2.spark).isSome = true) ∧
    (∀ es : List Env, s.revLimit = true → allHighRpm s es →
      (runCycles es s).1.revLimit = true ∧ (runCycles es s).2 = false) :=
  ⟨fun hks hrl hrpm => cycleStep_revLimit_entry e s hks hrl hrpm,
   fun hrl hrpm => cycleStep_revLimit_hold e s hrl hrpm,
   fun hks hrl hrpm => cycleStep_revLimit_clear e s hks hrl hrpm,
   fun es hrl hall => runCycles_revLimit es s hrl hall⟩

/-- C2 witness: a concrete revolution at observed RPM 6666.68 (angular speed
    1/25 deg/us) with killswitch closed and the limiter clear latches revLimit
    and arms nothing. -/
theorem revLimitHysteresis_witness :
    (cycleStep
        { tachNow := 9000, nowF := 9000, nowS := 9000, ve := fun _ _ => 0.65,
          sa := fun _ _ => 25, mapIn := 90, iatIn := 298, tpsIn := 0 }
        { currState := state.READ_SENSORS, killswitch := true, fuelCycle := false,
          revLimit := false, serialPrintCount := 1, currAngularSpeed := 1 / 25,
          currRPM := 0, calibAngleTime := 0, lastCalibAngleTime := 0,
          MAPval := 90, IATval := 298, TPSval := 0, volEff := 0, airVolume := 0,
          fuelDuration := 0, fuelStartAngle := 0, sparkChargeAngle := 0,
          sparkDischargeAngle := 0, currEngineAngle := 0 }).1.revLimit = true ∧
    (cycleStep
        { tachNow := 9000, nowF := 9000, nowS := 9000, ve := fun _ _ => 0.65,
          sa := fun _ _ => 25, mapIn := 90, iatIn := 298, tpsIn := 0 }
        { currState := state.READ_SENSORS, killswitch := true, fuelCycle := false,
          revLimit := false, serialPrintCount := 1, currAngularSpeed := 1 / 25,
          currRPM := 0, calibAngleTime := 0, lastCalibAngleTime := 0,
          MAPval := 90, IATval := 298, TPSval := 0, volEff := 0, airVolume := 0,
          fuelDuration := 0, fuelStartAngle := 0, sparkChargeAngle := 0,
          sparkDischargeAngle := 0, currEngineAngle := 0 }).2 = noArm :=
  (revLimitHysteresis _ _).1 rfl rfl
    (by norm_num [tach_ISR, calcSpeed, convertToRPM, UPPER_REV_LIMIT])

/- ### C3: killswitch gating -/

/-- C3: a CALIBRATION step with killswitch == false goes to READ_SENSORS and
    arms nothing; conversely any loop iteration that lands in CRANKING or
    RUNNING was a CALIBRATION iteration with killswitch == true; and a whole
    revolution with killswitch == false leaves CALIBRATION for READ_SENSORS
    and arms no fuel or spark timer. -/
theorem killswitchGating :
    (∀ (e : Env) (s : EcuState), s.currState = state.CALIBRATION →
      s.killswitch = false →
      (loopStep e s).1.currState = state.READ_SENSORS ∧ (loopStep e s).2 = noArm) ∧
    (∀ (e : Env) (s : EcuState),
      (loopStep e s).1.currState = state.CRANKING ∨
        (loopStep e s).1.currState = state.RUNNING →
      s.currState = state.CALIBRATION ∧ s.killswitch = true) ∧
    (∀ (e : Env) (s : EcuState), s.killswitch = false →
      (loopStep e (tach_ISR e.tachNow s)).1.currState = state.READ_SENSORS ∧
      (cycleStep e s).2 = noArm) := by
  refine ⟨?_, ?_, ?_⟩
  · intro e s hst hks
    obtain ⟨cs, kw, fc, rl, spc, w, rpm0, cat, lcat, mp, iat, tps, ve0, av, fd, fsa, sca, sda, cea⟩ := s
    simp only at hst hks
    subst hst
    subst hks
    simp [loopStep, noArm]
  · intro e s h
    obtain ⟨cs, kw, fc, rl, spc, w, rpm0, cat, lcat, mp, iat, tps, ve0, av, fd, fsa, sca, sda, cea⟩ := s
    cases cs <;> cases kw <;>
      simp only [loopStep] at h ⊢ <;>
        (try split_ifs at h) <;> simp_all
  · intro e s hks
    obtain ⟨cs, kw, fc, rl, spc, w, rpm0, cat, lcat, mp, iat, tps, ve0, av, fd, fsa, sca, sda, cea⟩ := s
    simp only at hks
    subst hks
    simp [cycleStep, tach_ISR, loopStep, armJoin, noArm]

/-- C3 witness: a concrete CALIBRATION state with killswitch open steps to
    READ_SENSORS with no arming. -/
theorem killswitchGating_witness :
    (loopStep
        { tachNow := 0, nowF := 0, nowS := 0, ve := fun _ _ => 0.65,
          sa := fun _ _ => 25, mapIn := 90, iatIn := 298, tpsIn := 0 }
        { currState := state.CALIBRATION, killswitch := false, fuelCycle := true,
          revLimit := false, serialPrintCount := 1, currAngularSpeed := 1 / 25,
          currRPM := 0, calibAngleTime := 0, lastCalibAngleTime := 0,
          MAPval := 90, IATval := 298, TPSval := 0, volEff := 0, airVolume := 0,
          fuelDuration := 0, fuelStartAngle := 0, sparkChargeAngle := 0,
          sparkDischargeAngle := 0, currEngineAngle := 0 }).1.currState
      = state.READ_SENSORS ∧
    (loopStep
        { tachNow := 0, nowF := 0, nowS := 0, ve := fun _ _ => 0.65,
          sa := fun _ _ => 25, mapIn := 90, iatIn := 298, tpsIn := 0 }
        { currState := state.CALIBRATION, killswitch := false, fuelCycle := true,
          revLimit := false, serialPrintCount := 1, currAngularSpeed := 1 / 25,
          currRPM := 0, calibAngleTime := 0, lastCalibAngleTime := 0,
          MAPval := 90, IATval := 298, TPSval := 0, volEff := 0, airVolume := 0,
          fuelDuration := 0, fuelStartAngle := 0, sparkChargeAngle := 0,
          sparkDischargeAngle := 0, currEngineAngle := 0 }).2 = noArm :=
  killswitchGating.1 _ _ rfl rfl

/- ### C6: CALIBRATION rpm partition -/

/-- C6: with killswitch closed and the rev limiter clear, the CALIBRATION step
    partitions the observed RPM exactly: below 100 to READ_SENSORS, [100, 500)
    to CRANKING, [500, 6000) to RUNNING, and at or above 6000 to REV_LIMITER;
    the four guards cover every RPM and the boundary values 100, 500 and 6000
    fall in the upper branch of each pair. -/
theorem calibrationPartition (e : Env) (s : EcuState)
    (hst : s.currState = state.CALIBRATION)
    (hks : s.killswitch = true) (hrl : s.revLimit = false) :
    (convertToRPM s.currAngularSpeed < ENGAGE_SPEED →
      (loopStep e s).1.currState = state.READ_SENSORS) ∧
    (ENGAGE_SPEED ≤ convertToRPM s.currAngularSpeed →
      convertToRPM s.currAngularSpeed < CRANKING_SPEED →
      (loopStep e s).1.currState = state.CRANKING) ∧
    (CRANKING_SPEED ≤ convertToRPM s.currAngularSpeed →
      convertToRPM s.currAngularSpeed < UPPER_REV_LIMIT →
      (loopStep e s).1.currState = state.RUNNING) ∧
    (UPPER_REV_LIMIT ≤ convertToRPM s.currAngularSpeed →
      (loopStep e s).1.currState = state.REV_LIMITER) := by
  obtain ⟨cs, kw, fc, rl, spc, w, rpm0, cat, lcat, mp, iat, tps, ve0, av, fd, fsa, sca, sda, cea⟩ := s
  simp only at hst hks hrl
  subst hst
  subst hks
  subst hrl
  simp only [ENGAGE_SPEED, CRANKING_SPEED, UPPER_REV_LIMIT]
  refine ⟨fun h1 => ?_, fun h1 h2 => ?_, fun h1 h2 => ?_, fun h1 => ?_⟩
  · have c1 : ¬ (6000 : ℚ) ≤ convertToRPM w := by linarith
    have c2 : ¬ (convertToRPM w < 6000 ∧ (500 : ℚ) ≤ convertToRPM w) := by
      rintro ⟨-, hb⟩; linarith
    have c3 : ¬ (convertToRPM w < 500 ∧ (100 : ℚ) ≤ convertToRPM w) := by
      rintro ⟨-, hb⟩; linarith
    simp [loopStep, UPPER_REV_LIMIT, CRANKING_SPEED, ENGAGE_SPEED, c1, c2, c3]
  · have c1 : ¬ (6000 : ℚ) ≤ convertToRPM w := by linarith
    have c2 : ¬ (convertToRPM w < 6000 ∧ (500 : ℚ) ≤ convertToRPM w) := by
      rintro ⟨-, hb⟩; linarith
    have c3 : convertToRPM w < 500 ∧ (100 : ℚ) ≤ convertToRPM w := ⟨h2, h1⟩
    simp [loopStep, UPPER_REV_LIMIT, CRANKING_SPEED, ENGAGE_SPEED, c1, c2, c3]
  · have c1 : ¬ (6000 : ℚ) ≤ convertToRPM w := by linarith
    have c2 : convertToRPM w < 6000 ∧ (500 : ℚ) ≤ convertToRPM w := ⟨h2, h1⟩
    simp [loopStep, UPPER_REV_LIMIT, CRANKING_SPEED, ENGAGE_SPEED, c1, c2]
  · have c1 : (6000 : ℚ) ≤ convertToRPM w := h1
    simp [loopStep, UPPER_REV_LIMIT, CRANKING_SPEED, ENGAGE_SPEED, c1]

/-- C6 witness: the three boundary RPM values are classified by the upper
    branch: 100 RPM enters CRANKING, 500 RPM enters RUNNING, 6000 RPM enters
    REV_LIMITER. -/
theorem calibrationPartition_witness :
    (loopStep
        { tachNow := 0, nowF := 0, nowS := 0, ve := fun _ _ => 0.65,
          sa := fun _ _ => 25, mapIn := 90, iatIn := 298, tpsIn := 0 }
        { currState := state.CALIBRATION, killswitch := true, fuelCycle := false,
          revLimit := false, serialPrintCount := 1,
          currAngularSpeed := 100 / 166667,
          currRPM := 0, calibAngleTime := 0, lastCalibAngleTime := 0,
          MAPval := 90, IATval := 298, TPSval := 0, volEff := 0, airVolume := 0,
          fuelDuration := 0, fuelStartAngle := 0, sparkChargeAngle := 0,
          sparkDischargeAngle := 0, currEngineAngle := 0 }).1.currState
      = state.CRANKING ∧
    (loopStep
        { tachNow := 0, nowF := 0, nowS := 0, ve := fun _ _ => 0.65,
          sa := fun _ _ => 25, mapIn := 90, iatIn := 298, tpsIn := 0 }
        { currState := state.CALIBRATION, killswitch := true, fuelCycle := false,
          revLimit := false, serialPrintCount := 1,
          currAngularSpeed := 500 / 166667,
          currRPM := 0, calibAngleTime := 0, lastCalibAngleTime := 0,
          MAPval := 90, IATval := 298, TPSval := 0, volEff := 0, airVolume := 0,
          fuelDuration := 0, fuelStartAngle := 0, sparkChargeAngle := 0,
          sparkDischargeAngle := 0, currEngineAngle := 0 }).1.currState
      = state.RUNNING ∧
    (loopStep
        { tachNow := 0, nowF := 0, nowS := 0, ve := fun _ _ => 0.65,
          sa := fun _ _ => 25, mapIn := 90, iatIn := 298, tpsIn := 0 }
        { currState := state.CALIBRATION, killswitch := true, fuelCycle := false,
          revLimit := false, serialPrintCount := 1,
          currAngularSpeed := 6000 / 166667,
          currRPM := 0, calibAngleTime := 0, lastCalibAngleTime := 0,
          MAPval := 90, IATval := 298, TPSval := 0, volEff := 0, airVolume := 0,
          fuelDuration := 0, fuelStartAngle := 0, sparkChargeAngle := 0,
          sparkDischargeAngle := 0, currEngineAngle := 0 }).1.currState
      = state.REV_LIMITER :=
  ⟨(calibrationPartition _ _ rfl rfl rfl).2.1
      (by norm_num [convertToRPM, ENGAGE_SPEED])
      (by norm_num [convertToRPM, CRANKING_SPEED]),
   (calibrationPartition _ _ rfl rfl rfl).2.2.1
      (by norm_num [convertToRPM, CRANKING_SPEED])
      (by norm_num [convertToRPM, UPPER_REV_LIMIT]),
   (calibrationPartition _ _ rfl rfl rfl).2.2.2
      (by norm_num [convertToRPM, UPPER_REV_LIMIT])⟩

/- ### C4: past-due angular targets are not skipped -/

/-- C4: a CRANKING iteration at angular speed 0.018 deg/us whose current
    engine angle (318 deg) already lies past the computed spark charge angle
    (296 deg) computes the negative delay -11000/9 us, yet still calls
    SPARK_CHARGE_TIMER.start with it: the body has no guard for a negative or
    minimal delay, so the event is armed, not skipped. -/
theorem pastDueSparkStillArmed :
    (loopStep
        { tachNow := 0, nowF := 16000, nowS := 16000, ve := fun _ _ => 0.65,
          sa := fun _ _ => 25, mapIn := 90, iatIn := 298, tpsIn := 0 }
        { currState := state.CRANKING, killswitch := true, fuelCycle := false,
          revLimit := false, serialPrintCount := 1, currAngularSpeed := 9 / 500,
          currRPM := 0, calibAngleTime := 0, lastCalibAngleTime := 0,
          MAPval := 90, IATval := 298, TPSval := 0, volEff := 0, airVolume := 0,
          fuelDuration := 0, fuelStartAngle := 0, sparkChargeAngle := 0,
          sparkDischargeAngle := 0, currEngineAngle := 0 }).2
      = { fuel := none, spark := some (-11000 / 9) } ∧
    (-11000 / 9 : ℚ) < 0 := by
  constructor
  · simp only [loopStep]
    norm_num [getCurrAngle, timetoChargeSpark, TDC, CRANK_SPARK_ADV, DWELL_TIME,
      CALIB_ANGLE]
  · norm_num
